import Mathlib

/-!
Verification of the prisma-learning repository: a shallow embedding of its
data model (users, profiles, posts, categories, post-category junction,
comments), of the Express route handlers of the HTTP server, and of the
seed script, together with theorems settling the specification claims.

The database is modelled as lists of rows; each handler is a pure function
from the database state and the request parameters to an HTTP status, a
response payload and the resulting database state.  The Prisma query layer
is modelled by `Except PrismaError`-valued functions; catch clauses of the
handlers are modelled as functions from a `PrismaError` to a status and a
message, exactly mirroring the source.
-/

/-- Role enum of the schema: USER / MODERATOR / ADMIN. -/
inductive Role where
  | USER
  | MODERATOR
  | ADMIN
deriving DecidableEq, Repr

/-- A row of the users table. -/
structure User where
  id : Nat
  email : String
  name : String
  age : Nat
  role : Role
  isActive : Bool
  createdAt : Nat
deriving DecidableEq, Repr

/-- A row of the profiles table (1:1 with users via userId). -/
structure Profile where
  id : Nat
  bio : String
  avatar : String
  website : String
  location : String
  userId : Nat
deriving DecidableEq, Repr

/-- A row of the posts table. -/
structure Post where
  id : Nat
  title : String
  content : String
  published : Bool
  views : Nat
  authorId : Nat
  createdAt : Nat
deriving DecidableEq, Repr

/-- A row of the categories table. -/
structure Category where
  id : Nat
  name : String
  color : String
deriving DecidableEq, Repr

/-- A row of the post-category junction table. -/
structure PostCategory where
  postId : Nat
  categoryId : Nat
deriving DecidableEq, Repr

/-- A row of the comments table. -/
structure Comment where
  id : Nat
  content : String
  authorId : Nat
  postId : Nat
deriving DecidableEq, Repr

/-- The whole database state: one list of rows per table. -/
structure DB where
  users : List User
  profiles : List Profile
  posts : List Post
  categories : List Category
  postCategories : List PostCategory
  comments : List Comment
deriving DecidableEq, Repr

/-- A Prisma error as observed by the handlers: an optional error code
(such as P2002 or P2025) and a message. -/
structure PrismaError where
  code : Option String
  message : String
deriving DecidableEq, Repr

/-- Does the character list `needle` start the character list given second? -/
def startsWithChars : List Char → List Char → Bool
  | [], _ => true
  | _ :: _, [] => false
  | a :: as, b :: bs => a == b && startsWithChars as bs

/-- Substring test on character lists: does `needle` occur inside the hay? -/
def containsChars (needle : List Char) : List Char → Bool
  | [] => needle.isEmpty
  | b :: bs => startsWithChars needle (b :: bs) || containsChars needle bs

/-- Case-insensitive substring test, the model of Prisma
`contains ... mode: insensitive`. -/
def containsCI (hay needle : String) : Bool :=
  containsChars (needle.data.map Char.toLower) (hay.data.map Char.toLower)

/-- Case-insensitive string equality, the model of Prisma
`equals ... mode: insensitive`. -/
def eqCI (a b : String) : Bool :=
  a.data.map Char.toLower == b.data.map Char.toLower

/-- Insert one element into a list sorted descending by `key`. -/
def insertDesc (key : α → Nat) (x : α) : List α → List α
  | [] => [x]
  | y :: ys => if key y ≤ key x then x :: y :: ys else y :: insertDesc key x ys

/-- Sort a list descending by `key`: the model of Prisma
`orderBy createdAt desc`. -/
def sortByDesc (key : α → Nat) : List α → List α
  | [] => []
  | x :: xs => insertDesc key x (sortByDesc key xs)

/-- The pagination object returned by the list endpoints. -/
structure Pagination where
  page : Nat
  limit : Nat
  total : Nat
  totalPages : Nat
deriving DecidableEq, Repr

/-- The where-clause of GET /api/users: optional role filter, optional
case-insensitive substring search over name or email. -/
def userMatches (role : Option Role) (search : Option String) (u : User) : Bool :=
  (match role with
   | none => true
   | some r => u.role == r)
  && (match search with
      | none => true
      | some s => containsCI u.name s || containsCI u.email s)

/-- GET /api/users: filter by role/search, order by createdAt descending,
skip (page-1)*limit rows, take limit rows, and report
total = count(where) and totalPages = ceil(total/limit). -/
def getUsersHandler (db : DB) (page limit : Nat) (role : Option Role)
    (search : Option String) : List User × Pagination :=
  let matching := db.users.filter (userMatches role search)
  let sorted := sortByDesc User.createdAt matching
  let data := (sorted.drop ((page - 1) * limit)).take limit
  let total := matching.length
  (data, { page := page
           limit := limit
           total := total
           totalPages := (total + limit - 1) / limit })

/-- The seven optional query parameters of GET /api/posts/search.  The
published parameter is kept as the raw query string, as in the source. -/
structure SearchParams where
  q : Option String
  category : Option String
  author : Option String
  published : Option String
  minViews : Option Nat
  dateFrom : Option Nat
  dateTo : Option Nat
deriving DecidableEq, Repr

/-- The conjunctive where-clause built by GET /api/posts/search from its
seven optional parameters, evaluated on one post row. -/
def postMatches (db : DB) (sp : SearchParams) (p : Post) : Bool :=
  (match sp.q with
   | none => true
   | some q => containsCI p.title q || containsCI p.content q)
  && (match sp.category with
      | none => true
      | some c => db.postCategories.any (fun pc =>
          pc.postId == p.id && db.categories.any (fun cat =>
            cat.id == pc.categoryId && eqCI cat.name c)))
  && (match sp.author with
      | none => true
      | some a =>
        match db.users.find? (fun u => u.id == p.authorId) with
        | none => false
        | some u => containsCI u.name a)
  && (match sp.published with
      | none => true
      | some s => p.published == (s == "true"))
  && (match sp.minViews with
      | none => true
      | some m => decide (m ≤ p.views))
  && (match sp.dateFrom with
      | none => true
      | some d => decide (d ≤ p.createdAt))
  && (match sp.dateTo with
      | none => true
      | some d => decide (p.createdAt ≤ d))

/-- GET /api/posts/search: filter with the conjunctive where-clause, order
by createdAt descending, paginate, and report total = count(where) and
totalPages = ceil(total/limit). -/
def searchPostsHandler (db : DB) (sp : SearchParams) (page limit : Nat) :
    List Post × Pagination :=
  let matching := db.posts.filter (postMatches db sp)
  let sorted := sortByDesc Post.createdAt matching
  let data := (sorted.drop ((page - 1) * limit)).take limit
  let total := matching.length
  (data, { page := page
           limit := limit
           total := total
           totalPages := (total + limit - 1) / limit })

/-- Modelled from the spec: "Search with no parameters returns the same
result set as an unfiltered paginated list of posts" — all posts, ordered
by creation time descending, paginated with the same page/limit, with
total the number of all posts and totalPages = ceil(total/limit). -/
def unfilteredPostsPage (db : DB) (page limit : Nat) : List Post × Pagination :=
  let sorted := sortByDesc Post.createdAt db.posts
  ((sorted.drop ((page - 1) * limit)).take limit,
   { page := page
     limit := limit
     total := db.posts.length
     totalPages := (db.posts.length + limit - 1) / limit })

/-- The profile fields carried in a nested profile create/upsert body. -/
structure ProfileData where
  bio : String
  avatar : String
  website : String
  location : String
deriving DecidableEq, Repr

/-- prisma.user.create with an optional nested profile create: fails with
code P2002 when the unique email constraint is violated; otherwise appends
the new user row (and profile row, when given).  newId, newProfileId and
createdAt stand for the values the database would generate. -/
def prismaUserCreate (db : DB) (newId createdAt : Nat) (email name : String)
    (age : Nat) (role : Role) (profile : Option ProfileData)
    (newProfileId : Nat) : Except PrismaError (User × DB) :=
  if db.users.any (fun u => u.email == email) then
    .error { code := some "P2002"
             message := "Unique constraint failed on the fields: (email)" }
  else
    let u : User := { id := newId
                      email := email
                      name := name
                      age := age
                      role := role
                      isActive := true
                      createdAt := createdAt }
    let profiles' :=
      match profile with
      | none => db.profiles
      | some pd => db.profiles ++
          [{ id := newProfileId
             bio := pd.bio
             avatar := pd.avatar
             website := pd.website
             location := pd.location
             userId := newId }]
    .ok (u, { db with users := db.users ++ [u], profiles := profiles' })

/-- The catch clause of POST /api/users: P2002 maps to 400 with the message
"Email already exists", everything else to 500 with the error message. -/
def createUserCatch (e : PrismaError) : Nat × String :=
  if e.code == some "P2002" then (400, "Email already exists")
  else (500, e.message)

/-- POST /api/users: create the user (with optional nested profile); 201
with no error on success, otherwise the status and message of the catch
clause with the database state unchanged. -/
def createUserHandler (db : DB) (newId createdAt : Nat) (email name : String)
    (age : Nat) (role : Role) (profile : Option ProfileData)
    (newProfileId : Nat) : Nat × Option String × DB :=
  match prismaUserCreate db newId createdAt email name age role profile newProfileId with
  | .ok (_, db') => (201, none, db')
  | .error e =>
    let (s, m) := createUserCatch e
    (s, some m, db)

/-- The partial update body of PUT /api/users/:id: absent fields are left
unchanged, as Prisma ignores undefined values. -/
structure UserUpdate where
  email : Option String
  name : Option String
  age : Option Nat
  role : Option Role
deriving DecidableEq, Repr

/-- prisma.user.update with an optional nested profile upsert: fails with
code P2025 when no user has the given id; fails with P2002 when the updated
email collides with another user; otherwise rewrites the user row and
upserts the profile row. -/
def prismaUserUpdate (db : DB) (id : Nat) (upd : UserUpdate)
    (profile : Option ProfileData) (newProfileId : Nat) :
    Except PrismaError (User × DB) :=
  match db.users.find? (fun u => u.id == id) with
  | none => .error { code := some "P2025"
                     message := "Record to update not found." }
  | some u =>
    let u' : User := { u with
                       email := upd.email.getD u.email
                       name := upd.name.getD u.name
                       age := upd.age.getD u.age
                       role := upd.role.getD u.role }
    if db.users.any (fun v => v.id != u.id && v.email == u'.email) then
      .error { code := some "P2002"
               message := "Unique constraint failed on the fields: (email)" }
    else
      let profiles' :=
        match profile with
        | none => db.profiles
        | some pd =>
          if db.profiles.any (fun pr => pr.userId == id) then
            db.profiles.map (fun pr =>
              if pr.userId == id then
                { pr with
                  bio := pd.bio
                  avatar := pd.avatar
                  website := pd.website
                  location := pd.location }
              else pr)
          else
            db.profiles ++
              [{ id := newProfileId
                 bio := pd.bio
                 avatar := pd.avatar
                 website := pd.website
                 location := pd.location
                 userId := id }]
      .ok (u', { db with
                 users := db.users.map (fun v => if v.id == id then u' else v)
                 profiles := profiles' })

/-- The catch clause of PUT /api/users/:id: P2025 maps to 404 with
"User not found", everything else to 500 with the error message. -/
def putUserCatch (e : PrismaError) : Nat × String :=
  if e.code == some "P2025" then (404, "User not found")
  else (500, e.message)

/-- PUT /api/users/:id: update the user; 200 on success, otherwise the
status and message of the catch clause with the state unchanged. -/
def putUserHandler (db : DB) (id : Nat) (upd : UserUpdate)
    (profile : Option ProfileData) (newProfileId : Nat) :
    Nat × Option String × DB :=
  match prismaUserUpdate db id upd profile newProfileId with
  | .ok (_, db') => (200, none, db')
  | .error e =>
    let (s, m) := putUserCatch e
    (s, some m, db)

/-- prisma.user.delete: fails with code P2025 when no user has the given
id; otherwise removes the user row. -/
def prismaUserDelete (db : DB) (id : Nat) : Except PrismaError DB :=
  match db.users.find? (fun u => u.id == id) with
  | none => .error { code := some "P2025"
                     message := "Record to delete does not exist." }
  | some _ => .ok { db with users := db.users.filter (fun u => u.id != id) }

/-- The catch clause of DELETE /api/users/:id: P2025 maps to 404 with
"User not found", everything else to 500 with the error message. -/
def deleteUserCatch (e : PrismaError) : Nat × String :=
  if e.code == some "P2025" then (404, "User not found")
  else (500, e.message)

/-- DELETE /api/users/:id: delete the user; 204 on success, otherwise the
status and message of the catch clause with the state unchanged. -/
def deleteUserHandler (db : DB) (id : Nat) : Nat × Option String × DB :=
  match prismaUserDelete db id with
  | .ok db' => (204, none, db')
  | .error e =>
    let (s, m) := deleteUserCatch e
    (s, some m, db)

/-- The catch clause shared by the read-only endpoints (GET /api/users,
GET /api/users/:id, analytics, search, raw SQL): every error maps to 500
with the error message. -/
def listCatch (e : PrismaError) : Nat × String := (500, e.message)

/-- The catch clause of POST /api/posts/:id/transfer: every error maps to
400 with the error message. -/
def transferCatch (e : PrismaError) : Nat × String := (400, e.message)

/-- tx.user.findUnique by the unique email field. -/
def findUserByEmail (db : DB) (email : String) : Option User :=
  db.users.find? (fun u => u.email == email)

/-- tx.post.findUnique by id. -/
def findPostById (db : DB) (id : Nat) : Option Post :=
  db.posts.find? (fun p => p.id == id)

/-- The body of the response of POST /api/posts/:id/transfer: the updated
post and the author the post had before the update (included relation,
hence an Option in the row model). -/
structure TransferResult where
  post : Post
  previousAuthor : Option User
deriving DecidableEq, Repr

/-- The transaction of POST /api/posts/:id/transfer: look up the new
author by email (throw "New author not found" when absent), look up the
current post with its author (throw "Post not found" when absent), then
reassign the post's authorId.  A thrown error aborts the transaction, so
no database change escapes it. -/
def transferTx (db : DB) (postId : Nat) (newAuthorEmail : String) :
    Except String (TransferResult × DB) :=
  match findUserByEmail db newAuthorEmail with
  | none => .error "New author not found"
  | some newAuthor =>
    match findPostById db postId with
    | none => .error "Post not found"
    | some currentPost =>
      let updatedPost := { currentPost with authorId := newAuthor.id }
      let db' := { db with
                   posts := db.posts.map (fun p =>
                     if p.id == postId then updatedPost else p) }
      .ok ({ post := updatedPost
             previousAuthor :=
               db.users.find? (fun u => u.id == currentPost.authorId) },
           db')

/-- POST /api/posts/:id/transfer: run the transaction; 200 with the result
on success, otherwise 400 with the rolled-back (unchanged) database. -/
def transferHandler (db : DB) (postId : Nat) (newAuthorEmail : String) :
    Nat × Option TransferResult × DB :=
  match transferTx db postId newAuthorEmail with
  | .ok (r, db') => (200, some r, db')
  | .error _ => (400, none, db)

/-- One operation performed by the seed script, in program order. -/
inductive SeedOp where
  | deleteManyComments
  | deleteManyPostCategories
  | deleteManyPosts
  | deleteManyCategories
  | deleteManyProfiles
  | deleteManyUsers
  | createCategory (name color : String)
  | createUser (email name : String) (age : Nat) (role : Role)
      (profile : Option ProfileData)
  | createPost (title content : String) (published : Bool) (views : Nat)
      (authorIdx : Nat)
  | createPostCategory (categoryIdx : Nat)
  | createComment (content : String) (authorIdx : Nat)
deriving DecidableEq, Repr

/-- The faker outputs consumed when creating one user and its profile. -/
structure UserRand where
  email : String
  name : String
  age : Nat
  bio : String
  avatar : String
  website : String
  location : String
deriving DecidableEq, Repr

/-- The faker outputs consumed when creating one post: its fields, the
random subset of category indices, and the random comments (content and
commenting-user index). -/
structure PostRand where
  title : String
  content : String
  published : Bool
  views : Nat
  categoryIdxs : List Nat
  comments : List (String × Nat)
deriving DecidableEq, Repr

/-- All faker randomness of one run of the seed script: the per-user
outputs and, for each user index, the posts created for that user. -/
structure SeedRandom where
  userRand : Nat → UserRand
  postsFor : Nat → List PostRand

/-- Role assignment of the seed script user loop:
i = 0 gives ADMIN, i = 1 gives MODERATOR, every later i gives USER. -/
def seedRole (i : Nat) : Role :=
  if i = 0 then .ADMIN else if i = 1 then .MODERATOR else .USER

/-- The clearing phase of the seed script, in program order. -/
def seedClearOps : List SeedOp :=
  [.deleteManyComments, .deleteManyPostCategories, .deleteManyPosts,
   .deleteManyCategories, .deleteManyProfiles, .deleteManyUsers]

/-- The four fixed categories created by the seed script. -/
def seedCategoryOps : List SeedOp :=
  [.createCategory "Technology" "#3B82F6",
   .createCategory "Programming" "#10B981",
   .createCategory "Design" "#F59E0B",
   .createCategory "Business" "#EF4444"]

/-- The user creation loop of the seed script: ten users, each created
with a nested profile, roles assigned by index. -/
def seedUserOps (r : SeedRandom) : List SeedOp :=
  (List.range 10).map (fun i =>
    let ur := r.userRand i
    .createUser ur.email ur.name ur.age (seedRole i)
      (some { bio := ur.bio
              avatar := ur.avatar
              website := ur.website
              location := ur.location }))

/-- The operations creating one post for the user at index u: the post
itself, then its junction rows, then its comments. -/
def seedOnePostOps (u : Nat) (pr : PostRand) : List SeedOp :=
  SeedOp.createPost pr.title pr.content pr.published pr.views u
    :: (pr.categoryIdxs.map (fun c => SeedOp.createPostCategory c)
        ++ pr.comments.map (fun ca => SeedOp.createComment ca.1 ca.2))

/-- The post creation loop of the seed script: for each of the ten users,
each of that user's random posts with its categories and comments. -/
def seedPostOps (r : SeedRandom) : List SeedOp :=
  (List.range 10).flatMap (fun u =>
    (r.postsFor u).flatMap (fun pr => seedOnePostOps u pr))

/-- One run of the seed script as its full operation trace:
clear everything, create categories, create users, create posts. -/
def seedTrace (r : SeedRandom) : List SeedOp :=
  seedClearOps ++ seedCategoryOps ++ seedUserOps r ++ seedPostOps r

/-- Is this operation one of the deleteMany calls? -/
def SeedOp.isDelete : SeedOp → Bool
  | .deleteManyComments => true
  | .deleteManyPostCategories => true
  | .deleteManyPosts => true
  | .deleteManyCategories => true
  | .deleteManyProfiles => true
  | .deleteManyUsers => true
  | _ => false

/-- Is this operation a user creation? -/
def SeedOp.isCreateUser : SeedOp → Bool
  | .createUser _ _ _ _ _ => true
  | _ => false

/-- Does this user creation carry a nested profile create? -/
def SeedOp.hasProfile : SeedOp → Bool
  | .createUser _ _ _ _ p => p.isSome
  | _ => false

/-- The role carried by a user creation, none for every other operation. -/
def SeedOp.roleOf : SeedOp → Option Role
  | .createUser _ _ _ ro _ => some ro
  | _ => none

theorem length_insertDesc (key : α → Nat) (x : α) (l : List α) :
    (insertDesc key x l).length = l.length + 1 := by
  induction l with
  | nil => rfl
  | cons y ys ih =>
    simp only [insertDesc]
    by_cases h : key y ≤ key x
    · simp [h]
    · simp [h, ih]

theorem length_sortByDesc (key : α → Nat) (l : List α) :
    (sortByDesc key l).length = l.length := by
  induction l with
  | nil => rfl
  | cons x xs ih => simp [sortByDesc, length_insertDesc, ih]

theorem mem_insertDesc (key : α → Nat) (x a : α) (l : List α) :
    a ∈ insertDesc key x l ↔ a = x ∨ a ∈ l := by
  induction l with
  | nil => simp [insertDesc]
  | cons y ys ih =>
    simp only [insertDesc]
    by_cases h : key y ≤ key x
    · simp [h]
    · simp [h, ih]
      tauto

theorem mem_sortByDesc (key : α → Nat) (a : α) (l : List α) :
    a ∈ sortByDesc key l ↔ a ∈ l := by
  induction l with
  | nil => simp [sortByDesc]
  | cons x xs ih => simp [sortByDesc, mem_insertDesc, ih]

theorem ceil_lower (total limit : Nat) (hl : 0 < limit) :
    total ≤ ((total + limit - 1) / limit) * limit := by
  have h1 := Nat.div_add_mod (total + limit - 1) limit
  have h2 : (total + limit - 1) % limit < limit := Nat.mod_lt _ hl
  have h3 : limit * ((total + limit - 1) / limit)
      = ((total + limit - 1) / limit) * limit := Nat.mul_comm _ _
  omega

theorem ceil_upper (total limit : Nat) (hl : 0 < limit) :
    ((total + limit - 1) / limit) * limit < total + limit := by
  have h1 : ((total + limit - 1) / limit) * limit ≤ total + limit - 1 :=
    Nat.div_mul_le_self _ _
  omega

theorem beyond_page_skip (total limit page : Nat) (hl : 0 < limit)
    (hp : (total + limit - 1) / limit < page) :
    total ≤ (page - 1) * limit := by
  have h1 := ceil_lower total limit hl
  have h2 : (total + limit - 1) / limit ≤ page - 1 := by omega
  have h3 : ((total + limit - 1) / limit) * limit ≤ (page - 1) * limit :=
    Nat.mul_le_mul_right limit h2
  omega

theorem find?_map_reassign (l : List Post) (pid : Nat) (post up : Post)
    (h : l.find? (fun p => p.id == pid) = some post) (hup : up.id = pid) :
    (l.map (fun p => if p.id == pid then up else p)).find?
      (fun p => p.id == pid) = some up := by
  induction l with
  | nil => simp at h
  | cons x xs ih =>
    by_cases hx : x.id = pid
    · simp [List.find?_cons, hx, hup]
    · have hx' : (x.id == pid) = false := by simp [hx]
      rw [List.find?_cons] at h
      simp only [hx'] at h
      simp only [List.map_cons, if_neg (by simp [hx] : ¬ (x.id == pid) = true)]
      rw [List.find?_cons]
      simp only [hx']
      exact ih h

/-- C1: For POST /api/posts/:id/transfer, whenever the post with the given
id exists and a user with the given newAuthorEmail exists, the handler
answers 200, sets the post's authorId to that user's id, and returns the
post's previous author under previousAuthor; whenever no user has the
given email, the handler answers 400 and the database — in particular the
post's authorId — is exactly as before the request (rollback, no partial
write). -/
theorem transfer_endpoint_ok (db : DB) (postId : Nat) (email : String) :
    (∀ post newAuthor oldAuthor,
        findPostById db postId = some post →
        findUserByEmail db email = some newAuthor →
        db.users.find? (fun u => u.id == post.authorId) = some oldAuthor →
        (transferHandler db postId email).1 = 200
        ∧ (transferHandler db postId email).2.1
            = some { post := { post with authorId := newAuthor.id }
                     previousAuthor := some oldAuthor }
        ∧ findPostById (transferHandler db postId email).2.2 postId
            = some { post with authorId := newAuthor.id })
    ∧ (findUserByEmail db email = none →
        transferHandler db postId email = (400, none, db)) := by
  constructor
  · intro post newAuthor oldAuthor hp hu ho
    have hpid : post.id = postId := by
      have := List.find?_some hp
      simpa using this
    refine ⟨?_, ?_, ?_⟩
    · simp [transferHandler, transferTx, hu, hp]
    · simp [transferHandler, transferTx, hu, hp, ho]
    · simp only [transferHandler, transferTx, hu, hp]
      simp only [findPostById]
      exact find?_map_reassign db.posts postId post _ hp hpid
  · intro hn
    simp [transferHandler, transferTx, hn]

/-- A sample user owning the sample post. -/
def userA : User :=
  { id := 1, email := "a@x", name := "A", age := 30, role := .USER,
    isActive := true, createdAt := 5 }

/-- A sample user to receive the transferred post. -/
def userB : User :=
  { id := 2, email := "b@x", name := "B", age := 40, role := .USER,
    isActive := true, createdAt := 6 }

/-- A sample post authored by userA. -/
def postP : Post :=
  { id := 7, title := "t", content := "c", published := true, views := 3,
    authorId := 1, createdAt := 9 }

/-- A sample database with two users and one post. -/
def dbT : DB :=
  { users := [userA, userB], profiles := [], posts := [postP],
    categories := [], postCategories := [], comments := [] }

/-- Witness for C1: on the sample database, transferring post 7 to the
existing email succeeds as stated, and transferring to a missing email
leaves the database untouched. -/
theorem transfer_endpoint_ok_witness :
    ((transferHandler dbT 7 "b@x").1 = 200
      ∧ (transferHandler dbT 7 "b@x").2.1
          = some { post := { postP with authorId := userB.id }
                   previousAuthor := some userA }
      ∧ findPostById (transferHandler dbT 7 "b@x").2.2 7
          = some { postP with authorId := userB.id })
    ∧ transferHandler dbT 7 "zz" = (400, none, dbT) := by
  constructor
  · exact (transfer_endpoint_ok dbT 7 "b@x").1 postP userB userA
      (by decide) (by decide) (by decide)
  · exact (transfer_endpoint_ok dbT 7 "zz").2 (by decide)

theorem beyond_page_nil (matching : List α) (key : α → Nat) (page limit : Nat)
    (hl : 0 < limit) (hp : (matching.length + limit - 1) / limit < page) :
    ((sortByDesc key matching).drop ((page - 1) * limit)).take limit = [] := by
  have h1 : (sortByDesc key matching).length ≤ (page - 1) * limit := by
    rw [length_sortByDesc]
    exact beyond_page_skip _ _ _ hl hp
  rw [List.drop_eq_nil_of_le h1]
  exact List.take_nil

/-- C2: On GET /api/users and GET /api/posts/search, for every filter
combination, the reported total is the count of the rows matching the
where-filter and totalPages is the ceiling of total/limit (characterised
by total ≤ totalPages·limit < total + limit); and for every page beyond
the last one the data array is empty while total and totalPages coincide
with those of page 1 under the same filter. -/
theorem pagination_totals_ok (db : DB) (page limit : Nat) (role : Option Role)
    (search : Option String) (sp : SearchParams) (hl : 0 < limit) :
    ((getUsersHandler db page limit role search).2.total
        = (db.users.filter (userMatches role search)).length
      ∧ (getUsersHandler db page limit role search).2.total
          ≤ (getUsersHandler db page limit role search).2.totalPages * limit
      ∧ (getUsersHandler db page limit role search).2.totalPages * limit
          < (getUsersHandler db page limit role search).2.total + limit
      ∧ ((getUsersHandler db page limit role search).2.totalPages < page →
          (getUsersHandler db page limit role search).1 = []
          ∧ (getUsersHandler db page limit role search).2.total
              = (getUsersHandler db 1 limit role search).2.total
          ∧ (getUsersHandler db page limit role search).2.totalPages
              = (getUsersHandler db 1 limit role search).2.totalPages))
    ∧ ((searchPostsHandler db sp page limit).2.total
        = (db.posts.filter (postMatches db sp)).length
      ∧ (searchPostsHandler db sp page limit).2.total
          ≤ (searchPostsHandler db sp page limit).2.totalPages * limit
      ∧ (searchPostsHandler db sp page limit).2.totalPages * limit
          < (searchPostsHandler db sp page limit).2.total + limit
      ∧ ((searchPostsHandler db sp page limit).2.totalPages < page →
          (searchPostsHandler db sp page limit).1 = []
          ∧ (searchPostsHandler db sp page limit).2.total
              = (searchPostsHandler db sp 1 limit).2.total
          ∧ (searchPostsHandler db sp page limit).2.totalPages
              = (searchPostsHandler db sp 1 limit).2.totalPages)) := by
  constructor
  · refine ⟨rfl, ceil_lower _ limit hl, ceil_upper _ limit hl, ?_⟩
    intro hp
    exact ⟨beyond_page_nil _ User.createdAt page limit hl hp, rfl, rfl⟩
  · refine ⟨rfl, ceil_lower _ limit hl, ceil_upper _ limit hl, ?_⟩
    intro hp
    exact ⟨beyond_page_nil _ Post.createdAt page limit hl hp, rfl, rfl⟩

/-- The search parameter record with none of the seven filters present. -/
def spNone : SearchParams :=
  { q := none, category := none, author := none, published := none,
    minViews := none, dateFrom := none, dateTo := none }

/-- Witness for C2: on the sample database with limit 1, page 9 lies
beyond the last page of both endpoints, the data arrays are empty, and the
totals agree with page 1. -/
theorem pagination_totals_ok_witness :
    0 < 1
    ∧ (getUsersHandler dbT 9 1 none none).2.total
        = (dbT.users.filter (userMatches none none)).length
    ∧ (getUsersHandler dbT 9 1 none none).1 = []
    ∧ (getUsersHandler dbT 9 1 none none).2.total
        = (getUsersHandler dbT 1 1 none none).2.total
    ∧ (searchPostsHandler dbT spNone 9 1).1 = []
    ∧ (searchPostsHandler dbT spNone 9 1).2.totalPages
        = (searchPostsHandler dbT spNone 1 1).2.totalPages := by
  have h := pagination_totals_ok dbT 9 1 none none spNone (by decide)
  have hu := h.1.2.2.2 (by decide)
  have hp := h.2.2.2.2 (by decide)
  exact ⟨by decide, h.1.1, hu.1, hu.2.1, hp.1, hp.2.2⟩

theorem postMatches_spNone (db : DB) (p : Post) : postMatches db spNone p = true := by
  simp [postMatches, spNone]

/-- C6: For every database state and every page/limit pair, the search
endpoint with none of its seven optional filter parameters present returns
exactly the unfiltered paginated list of posts: same records in the same
order and the same pagination values. -/
theorem search_no_filters_eq_unfiltered_list (db : DB) (page limit : Nat) :
    searchPostsHandler db spNone page limit = unfilteredPostsPage db page limit := by
  have hfilter : db.posts.filter (postMatches db spNone) = db.posts :=
    List.filter_eq_self.mpr (fun p _ => postMatches_spNone db p)
  simp only [searchPostsHandler, unfilteredPostsPage, hfilter]

/-- C3: For two POST /api/users requests carrying the same email against a
database not yet containing that email, the first succeeds with 201 and
the second fails with the duplicate-email error mapped to status 400 and
the message "Email already exists", leaving the state exactly as the first
request left it (the first user record is unchanged). -/
theorem duplicate_email_rejected (db : DB) (email n1 n2 : String)
    (a1 a2 : Nat) (r1 r2 : Role) (p1 p2 : Option ProfileData)
    (id1 id2 t1 t2 pid1 pid2 : Nat)
    (h : db.users.all (fun u => !(u.email == email)) = true) :
    (createUserHandler db id1 t1 email n1 a1 r1 p1 pid1).1 = 201
    ∧ (createUserHandler (createUserHandler db id1 t1 email n1 a1 r1 p1 pid1).2.2
        id2 t2 email n2 a2 r2 p2 pid2).1 = 400
    ∧ (createUserHandler (createUserHandler db id1 t1 email n1 a1 r1 p1 pid1).2.2
        id2 t2 email n2 a2 r2 p2 pid2).2.1 = some "Email already exists"
    ∧ (createUserHandler (createUserHandler db id1 t1 email n1 a1 r1 p1 pid1).2.2
        id2 t2 email n2 a2 r2 p2 pid2).2.2
        = (createUserHandler db id1 t1 email n1 a1 r1 p1 pid1).2.2 := by
  have hmem := List.all_eq_true.mp h
  have hany : db.users.any (fun u => u.email == email) = false := by
    rw [List.any_eq_false]
    intro u hu
    have hne := hmem u hu
    simp only [Bool.not_eq_true'] at hne
    simp [hne]
  refine ⟨?_, ?_, ?_, ?_⟩ <;>
    simp [createUserHandler, prismaUserCreate, createUserCatch, hany]

/-- The empty database. -/
def dbEmpty : DB :=
  { users := [], profiles := [], posts := [], categories := [],
    postCategories := [], comments := [] }

/-- Witness for C3: starting from the empty database, creating the same
email twice gives 201 then 400 "Email already exists" with no state
change after the rejection. -/
theorem duplicate_email_rejected_witness :
    dbEmpty.users.all (fun u => !(u.email == "e@x")) = true
    ∧ (createUserHandler dbEmpty 1 0 "e@x" "N" 20 .USER none 0).1 = 201
    ∧ (createUserHandler (createUserHandler dbEmpty 1 0 "e@x" "N" 20 .USER none 0).2.2
        2 1 "e@x" "M" 21 .USER none 0).1 = 400
    ∧ (createUserHandler (createUserHandler dbEmpty 1 0 "e@x" "N" 20 .USER none 0).2.2
        2 1 "e@x" "M" 21 .USER none 0).2.1 = some "Email already exists"
    ∧ (createUserHandler (createUserHandler dbEmpty 1 0 "e@x" "N" 20 .USER none 0).2.2
        2 1 "e@x" "M" 21 .USER none 0).2.2
        = (createUserHandler dbEmpty 1 0 "e@x" "N" 20 .USER none 0).2.2 := by
  have h := duplicate_email_rejected dbEmpty "e@x" "N" "M" 20 21 .USER .USER
    none none 1 2 0 1 0 0 (by decide)
  exact ⟨by decide, h.1, h.2.1, h.2.2.1, h.2.2.2⟩

/-- C4: For every id for which no user record exists, both
PUT /api/users/:id and DELETE /api/users/:id answer 404 — the not-found
mapping of the Prisma P2025 error — and neither answers 500. -/
theorem missing_user_not_found (db : DB) (id : Nat) (upd : UserUpdate)
    (profile : Option ProfileData) (newProfileId : Nat)
    (h : db.users.find? (fun u => u.id == id) = none) :
    (putUserHandler db id upd profile newProfileId).1 = 404
    ∧ (putUserHandler db id upd profile newProfileId).1 ≠ 500
    ∧ (putUserHandler db id upd profile newProfileId).2.1 = some "User not found"
    ∧ (deleteUserHandler db id).1 = 404
    ∧ (deleteUserHandler db id).1 ≠ 500
    ∧ (deleteUserHandler db id).2.1 = some "User not found" := by
  refine ⟨?_, ?_, ?_, ?_, ?_, ?_⟩ <;>
    simp [putUserHandler, prismaUserUpdate, putUserCatch,
      deleteUserHandler, prismaUserDelete, deleteUserCatch, h]

/-- The all-absent partial update body. -/
def updNone : UserUpdate :=
  { email := none, name := none, age := none, role := none }

/-- Witness for C4: no user has id 42 in the sample database, and both
update and delete answer 404, not 500. -/
theorem missing_user_not_found_witness :
    dbT.users.find? (fun u => u.id == 42) = none
    ∧ (putUserHandler dbT 42 updNone none 0).1 = 404
    ∧ (putUserHandler dbT 42 updNone none 0).1 ≠ 500
    ∧ (deleteUserHandler dbT 42).1 = 404
    ∧ (deleteUserHandler dbT 42).1 ≠ 500 := by
  have h := missing_user_not_found dbT 42 updNone none 0 (by decide)
  exact ⟨by decide, h.1, h.2.1, h.2.2.2.1, h.2.2.2.2.1⟩

/-- Counterexample for C5: the catch clause of POST /api/posts/:id/transfer
maps an error with the unrecognized code P1001 (database unreachable) to
status 400 — a client error, not the claimed generic 5xx server error. -/
theorem transfer_unrecognized_error_counterexample :
    (transferCatch { code := some "P1001", message := "database unreachable" }).1
        = 400
    ∧ (transferCatch { code := some "P1001", message := "database unreachable" }).1
        < 500 :=
  ⟨rfl, by decide⟩

/-- C5 (amended): every handler except the transfer endpoint maps an error
whose code is not its recognized one to the generic 500 response carrying
the error message — POST /api/users recognizes only P2002, PUT and DELETE
/api/users/:id recognize only P2025, the read endpoints recognize none —
while the transfer endpoint maps every error, recognized or not, to a 400
client-error response. -/
theorem error_mapping_amended (e : PrismaError) :
    (e.code ≠ some "P2002" → createUserCatch e = (500, e.message))
    ∧ (e.code ≠ some "P2025" → putUserCatch e = (500, e.message))
    ∧ (e.code ≠ some "P2025" → deleteUserCatch e = (500, e.message))
    ∧ listCatch e = (500, e.message)
    ∧ transferCatch e = (400, e.message) := by
  refine ⟨fun h => ?_, fun h => ?_, fun h => ?_, rfl, rfl⟩ <;>
    simp [createUserCatch, putUserCatch, deleteUserCatch, h]

/-- Witness for C5 (amended): an error with code P1001 is mapped to 500 by
the create, update, delete and read catch clauses and to 400 by the
transfer catch clause. -/
theorem error_mapping_amended_witness :
    (PrismaError.mk (some "P1001") "down").code ≠ some "P2002"
    ∧ (PrismaError.mk (some "P1001") "down").code ≠ some "P2025"
    ∧ createUserCatch { code := some "P1001", message := "down" } = (500, "down")
    ∧ putUserCatch { code := some "P1001", message := "down" } = (500, "down")
    ∧ deleteUserCatch { code := some "P1001", message := "down" } = (500, "down")
    ∧ listCatch { code := some "P1001", message := "down" } = (500, "down")
    ∧ transferCatch { code := some "P1001", message := "down" } = (400, "down") := by
  have h := error_mapping_amended { code := some "P1001", message := "down" }
  exact ⟨by decide, by decide, h.1 (by decide), h.2.1 (by decide),
    h.2.2.1 (by decide), h.2.2.2.1, h.2.2.2.2⟩

/-- C9: On GET /api/posts/search, whenever the published parameter is
present with value s, every returned post has published equal to the
boolean (s = "true") — so any present value other than the exact string
"true" (such as "false" or "1") yields only unpublished posts — and when
the parameter is absent the where-clause does not constrain the published
field at all. -/
theorem published_filter_ok (db : DB) (sp : SearchParams) (page limit : Nat)
    (s : String) :
    (sp.published = some s →
      ∀ p ∈ (searchPostsHandler db sp page limit).1,
        p.published = (s == "true"))
    ∧ (sp.published = none →
      ∀ p b, postMatches db sp p = postMatches db sp { p with published := b }) := by
  constructor
  · intro hs p hp
    have hp' : p ∈ ((sortByDesc Post.createdAt
        (db.posts.filter (postMatches db sp))).drop ((page - 1) * limit)).take limit := hp
    have h1 : p ∈ sortByDesc Post.createdAt (db.posts.filter (postMatches db sp)) :=
      List.drop_subset _ _ (List.take_subset _ _ hp')
    have h2 : p ∈ db.posts.filter (postMatches db sp) :=
      (mem_sortByDesc _ _ _).mp h1
    have h3 := List.of_mem_filter h2
    simp only [postMatches, hs, Bool.and_eq_true, beq_iff_eq] at h3
    tauto
  · intro hn p b
    simp [postMatches, hn]

/-- A published sample post. -/
def postPub : Post :=
  { id := 11, title := "pub", content := "x", published := true, views := 4,
    authorId := 1, createdAt := 20 }

/-- An unpublished sample post. -/
def postUnpub : Post :=
  { id := 12, title := "draft", content := "y", published := false, views := 1,
    authorId := 1, createdAt := 21 }

/-- Search parameters with published set to the string "1" and nothing
else. -/
def spOne : SearchParams := { spNone with published := some "1" }

/-- A sample database holding one published and one unpublished post. -/
def dbP : DB :=
  { users := [userA], profiles := [], posts := [postPub, postUnpub],
    categories := [], postCategories := [], comments := [] }

/-- Witness for C9: with published set to "1" (a value other than "true"),
the unpublished sample post is returned and its published field equals
("1" = "true"), that is, false. -/
theorem published_filter_ok_witness :
    spOne.published = some "1"
    ∧ postUnpub ∈ (searchPostsHandler dbP spOne 1 10).1
    ∧ postUnpub.published = ("1" == "true") := by
  have h := published_filter_ok dbP spOne 1 10 "1"
  have hm : postUnpub ∈ (searchPostsHandler dbP spOne 1 10).1 := by decide
  exact ⟨rfl, hm, h.1 rfl postUnpub hm⟩

theorem seedOnePostOps_shape (u : Nat) (pr : PostRand) (op : SeedOp)
    (h : op ∈ seedOnePostOps u pr) :
    op.isDelete = false ∧ op.isCreateUser = false ∧ op.roleOf = none := by
  simp only [seedOnePostOps, List.mem_cons, List.mem_append, List.mem_map] at h
  rcases h with rfl | ⟨c, -, rfl⟩ | ⟨ca, -, rfl⟩ <;>
    exact ⟨rfl, rfl, rfl⟩

theorem seedPostOps_shape (r : SeedRandom) (op : SeedOp)
    (h : op ∈ seedPostOps r) :
    op.isDelete = false ∧ op.isCreateUser = false ∧ op.roleOf = none := by
  simp only [seedPostOps, List.mem_flatMap, List.mem_range] at h
  obtain ⟨u, -, pr, -, hop⟩ := h
  exact seedOnePostOps_shape u pr op hop

/-- C7: The clearing phase of the seed script deletes all rows of each
entity in exactly the dependency order comments, post-category junction
rows, posts, categories, profiles, users — the first six operations of
every run — and no delete (hence no clearing) happens after them, so all
insertions come strictly later. -/
theorem seed_clear_order_ok (r : SeedRandom) :
    (seedTrace r).take 6
      = [SeedOp.deleteManyComments, SeedOp.deleteManyPostCategories,
         SeedOp.deleteManyPosts, SeedOp.deleteManyCategories,
         SeedOp.deleteManyProfiles, SeedOp.deleteManyUsers]
    ∧ ((seedTrace r).drop 6).all (fun op => !op.isDelete) = true := by
  constructor
  · rfl
  · have hd : (seedTrace r).drop 6
        = seedCategoryOps ++ seedUserOps r ++ seedPostOps r := rfl
    rw [hd]
    rw [List.all_eq_true]
    intro op hop
    simp only [List.mem_append] at hop
    rcases hop with (hc | hu) | hp
    · simp only [seedCategoryOps, List.mem_cons, List.not_mem_nil, or_false] at hc
      rcases hc with rfl | rfl | rfl | rfl <;> rfl
    · simp only [seedUserOps, List.mem_map, List.mem_range] at hu
      obtain ⟨i, -, rfl⟩ := hu
      rfl
    · simp [(seedPostOps_shape r op hp).1]

/-- A sample run of faker randomness: constant user data, no posts. -/
def sampleRandA : SeedRandom :=
  { userRand := fun _ =>
      { email := "a@a", name := "a", age := 20, bio := "b", avatar := "v",
        website := "w", location := "l" }
    postsFor := fun _ => [] }

/-- A different sample run of faker randomness: other user data, one post
per user with one category and one comment. -/
def sampleRandB : SeedRandom :=
  { userRand := fun i =>
      { email := toString i, name := "n", age := 50, bio := "x", avatar := "y",
        website := "z", location := "q" }
    postsFor := fun _ =>
      [{ title := "t", content := "c", published := true, views := 1,
         categoryIdxs := [0], comments := [("hi", 0)] }] }

/-- Counterexample for C8: the number of users created by the seed script
is not configurable — it is the hard-coded loop bound 10: two runs whose
faker randomness differs in every output both create exactly 10 users. -/
theorem seed_user_count_counterexample :
    ((seedTrace sampleRandA).filter SeedOp.isCreateUser).length = 10
    ∧ ((seedTrace sampleRandB).filter SeedOp.isCreateUser).length = 10 :=
  ⟨rfl, rfl⟩

/-- C8 (amended): every run of the seed script creates exactly 10 users —
the count is the hard-coded literal 10 of the user loop, identical in
every run rather than configurable — and every one of those user
creations carries a nested generated profile. -/
theorem seed_user_count_amended (r : SeedRandom) :
    ((seedTrace r).filter SeedOp.isCreateUser).length = 10
    ∧ ((seedTrace r).filter SeedOp.isCreateUser).all SeedOp.hasProfile = true := by
  have hu : (seedUserOps r).filter SeedOp.isCreateUser = seedUserOps r :=
    List.filter_eq_self.mpr (by
      intro op hop
      simp only [seedUserOps, List.mem_map, List.mem_range] at hop
      obtain ⟨i, -, rfl⟩ := hop
      rfl)
  have hp : (seedPostOps r).filter SeedOp.isCreateUser = [] := by
    rw [List.filter_eq_nil_iff]
    intro op hop
    simp [(seedPostOps_shape r op hop).2.1]
  have h0 : seedClearOps.filter SeedOp.isCreateUser = [] := rfl
  have h1 : seedCategoryOps.filter SeedOp.isCreateUser = [] := rfl
  constructor
  · simp only [seedTrace, List.filter_append]
    rw [h0, h1, hu, hp]
    simp [seedUserOps]
  · rw [List.all_eq_true]
    intro op hop
    have hmem := List.mem_of_mem_filter hop
    have hcu := List.of_mem_filter hop
    simp only [seedTrace, List.mem_append] at hmem
    rcases hmem with ((hc | hcat) | hu') | hp'
    · simp only [seedClearOps, List.mem_cons, List.not_mem_nil, or_false] at hc
      rcases hc with rfl | rfl | rfl | rfl | rfl | rfl <;>
        simp [SeedOp.isCreateUser] at hcu
    · simp only [seedCategoryOps, List.mem_cons, List.not_mem_nil, or_false] at hcat
      rcases hcat with rfl | rfl | rfl | rfl <;>
        simp [SeedOp.isCreateUser] at hcu
    · simp only [seedUserOps, List.mem_map, List.mem_range] at hu'
      obtain ⟨i, -, rfl⟩ := hu'
      rfl
    · simp [(seedPostOps_shape r op hp').2.1] at hcu

/-- C10: The seed script assigns roles deterministically by creation
index — index 0 gets ADMIN, index 1 gets MODERATOR, every index from 2 on
gets USER — so every run creates exactly one ADMIN user and exactly one
MODERATOR user. -/
theorem seed_roles_ok (r : SeedRandom) (i : Nat) (h2 : 2 ≤ i) :
    seedRole 0 = Role.ADMIN
    ∧ seedRole 1 = Role.MODERATOR
    ∧ seedRole i = Role.USER
    ∧ ((seedTrace r).filter (fun op => op.roleOf == some Role.ADMIN)).length = 1
    ∧ ((seedTrace r).filter (fun op => op.roleOf == some Role.MODERATOR)).length
        = 1 := by
  refine ⟨rfl, rfl, ?_, ?_, ?_⟩
  · unfold seedRole
    rw [if_neg (by omega), if_neg (by omega)]
  · have hA : ((seedUserOps r).filter
        (fun op => op.roleOf == some Role.ADMIN)).length = 1 := rfl
    have hpz : (seedPostOps r).filter (fun op => op.roleOf == some Role.ADMIN)
        = [] := by
      rw [List.filter_eq_nil_iff]
      intro op hop
      simp [(seedPostOps_shape r op hop).2.2]
    have h0 : seedClearOps.filter (fun op => op.roleOf == some Role.ADMIN)
        = [] := rfl
    have h1 : seedCategoryOps.filter (fun op => op.roleOf == some Role.ADMIN)
        = [] := rfl
    simp only [seedTrace, List.filter_append, h0, h1, hpz, List.nil_append,
      List.append_nil, List.length_append]
    simp [hA]
  · have hM : ((seedUserOps r).filter
        (fun op => op.roleOf == some Role.MODERATOR)).length = 1 := rfl
    have hpz : (seedPostOps r).filter
        (fun op => op.roleOf == some Role.MODERATOR) = [] := by
      rw [List.filter_eq_nil_iff]
      intro op hop
      simp [(seedPostOps_shape r op hop).2.2]
    have h0 : seedClearOps.filter (fun op => op.roleOf == some Role.MODERATOR)
        = [] := rfl
    have h1 : seedCategoryOps.filter (fun op => op.roleOf == some Role.MODERATOR)
        = [] := rfl
    simp only [seedTrace, List.filter_append, h0, h1, hpz, List.nil_append,
      List.append_nil, List.length_append]
    simp [hM]

/-- Witness for C10: at index 5 (which is at least 2) the seeded role is
USER, and the sample run creates exactly one ADMIN and one MODERATOR. -/
theorem seed_roles_ok_witness :
    2 ≤ 5
    ∧ (seedRole 0 = Role.ADMIN
      ∧ seedRole 1 = Role.MODERATOR
      ∧ seedRole 5 = Role.USER
      ∧ ((seedTrace sampleRandA).filter
          (fun op => op.roleOf == some Role.ADMIN)).length = 1
      ∧ ((seedTrace sampleRandA).filter
          (fun op => op.roleOf == some Role.MODERATOR)).length = 1) :=
  ⟨by decide, seed_roles_ok sampleRandA 5 (by decide)⟩
